import Mathlib

/-!
# Verification of the SharePoint Genie sidebar extension

A shallow embedding, in Lean 4, of the logic of the `spfx-sharepoint-genie`
repository: the MSAL token-acquisition flow (`acquireToken` in
`utils/acquireToken.ts`), the two HTTP service functions (`initSession.ts`,
`chat.ts`), the `Chat` React component's handlers (`Chat.tsx`), and the
application customizer's `onInit` and `_startNewConversation`
(`SidebarAgentApplicationCustomizer.ts`).

External effects (the MSAL library, `fetch`) are modelled by explicit
oracle values describing the outcome the environment would produce; the
embedded functions are pure functions of the program inputs and these
oracles, and additionally report the observable actions they perform
(popups opened, HTTP requests issued).
-/

namespace Genie

/-! ### Character-level string primitives

JavaScript string operations used by the sources, written over the
character list of a `String` so that the kernel can evaluate them on
concrete inputs (the built-in iterator-based versions do not reduce). -/

/-- JavaScript `s.trim()`: strip whitespace from both ends. -/
def jsTrim (s : String) : String :=
  String.mk
    (((s.data.dropWhile Char.isWhitespace).reverse.dropWhile
        Char.isWhitespace).reverse)

/-- JavaScript `s.toLowerCase()` (ASCII case folding). -/
def lowerStr (s : String) : String :=
  String.mk (s.data.map Char.toLower)

/-- JavaScript `s.endsWith(suffix)`. -/
def strEndsWith (s suffix : String) : Bool :=
  suffix.data.isSuffixOf s.data

/-- JavaScript `s.slice(0, n)`. -/
def strTake (s : String) (n : Nat) : String :=
  String.mk (s.data.take n)

/-- JavaScript `s.split(" ")[0]`: the prefix before the first space. -/
def firstWord (s : String) : String :=
  String.mk (s.data.takeWhile (fun c => c ≠ ' '))

/-! ## Token Provider: `acquireToken` (utils/acquireToken.ts) -/

/-- `IAuthSettings` from acquireToken.ts.  Fields are `Option String`
because the TypeScript code guards them with JavaScript truthiness checks
(`!settings?.appClientId`): a missing (`none`) or empty-string value is
falsy. -/
structure IAuthSettings where
  appClientId : Option String
  tenantId : Option String
  currentUserLogin : Option String
  redirectUri : Option String
deriving DecidableEq, Repr

/-- JavaScript truthiness of an optional string: `undefined`/absent and
`""` are falsy. -/
def truthy : Option String → Bool
  | none => false
  | some s => s ≠ ""

/-- Outcome the MSAL library would give to `acquireTokenSilent`. -/
inductive SilentOutcome where
  | success (accessToken : String)
  | interactionRequired
  | otherFailure
deriving DecidableEq, Repr

/-- Outcome the MSAL library would give to `acquireTokenPopup`. -/
inductive PopupOutcome where
  | success (accessToken : String)
  | failure
deriving DecidableEq, Repr

/-- Outcome the MSAL library would give to `loginPopup`; on success the
response's `account` field may still be null (`none`). -/
inductive LoginOutcome where
  | success (account : Option String)
  | failure
deriving DecidableEq, Repr

/-- The oracle for one `acquireToken` call: the cached accounts the MSAL
instance would report, and the outcome of each MSAL operation were it
invoked. -/
structure MsalEnv where
  cachedAccounts : List String
  loginPopup : LoginOutcome
  acquireTokenSilent : SilentOutcome
  acquireTokenPopup : PopupOutcome
deriving DecidableEq, Repr

/-- The interactive prompts `acquireToken` can open. -/
inductive PromptKind where
  | loginPopup
  | tokenPopup
deriving DecidableEq, Repr

/-- The silent-then-popup tail of `acquireToken` (acquireToken.ts lines
51-77): try `acquireTokenSilent`; on `InteractionRequiredAuthError` fall
back to one `acquireTokenPopup`; any other silent failure, or a popup
failure, returns `undefined` (`none`).  Returns the result together with
the interactive prompts opened in this tail. -/
def silentThenPopup (env : MsalEnv) : Option String × List PromptKind :=
  match env.acquireTokenSilent with
  | .success tok => (some tok, [])
  | .interactionRequired =>
      match env.acquireTokenPopup with
      | .success tok => (some tok, [.tokenPopup])
      | .failure => (none, [.tokenPopup])
  | .otherFailure => (none, [])

/-- `acquireToken(settings)` from acquireToken.ts: guard the required
settings, look up a cached account, interactively log in via popup when
none is cached (terminal on failure), then acquire a token silently with
popup fallback.  The result is the returned `string | undefined` paired
with the list of interactive prompts opened, in order. -/
def acquireToken (settings : IAuthSettings) (env : MsalEnv) :
    Option String × List PromptKind :=
  if ¬ (truthy settings.appClientId = true ∧ truthy settings.tenantId = true) then
    (none, [])
  else
    match env.cachedAccounts.head? with
    | none =>
        match env.loginPopup with
        | .failure => (none, [.loginPopup])
        | .success _ =>
            let (tok, prompts) := silentThenPopup env
            (tok, .loginPopup :: prompts)
    | some _ => silentThenPopup env

/-- Number of interactive token popups (`acquireTokenPopup` calls) in a
prompt trace. -/
def tokenPopupCount (l : List PromptKind) : Nat :=
  (l.filter fun p => p = PromptKind.tokenPopup).length

/-- Number of interactive login popups (`loginPopup` calls) in a prompt
trace. -/
def loginPopupCount (l : List PromptKind) : Nat :=
  (l.filter fun p => p = PromptKind.loginPopup).length

/-! ## HTTP services: `chat` (services/chat.ts), `initSession`
(services/initSession.ts)

Both read the build-time global `APP_CONFIG`, call `acquireToken`, and
issue one `fetch`.  Note: both call sites pass a second argument
(`acquireToken(APP_CONFIG, user)` resp. `acquireToken(APP_CONFIG,
user.loginName)`), but `acquireToken` declares a single `settings`
parameter, so in JavaScript the extra argument is ignored; the embedding
accordingly calls `acquireToken` on the config's auth settings alone. -/

/-- The build-time global `APP_CONFIG`: the auth settings `acquireToken`
reads, plus the service base URLs the two fetches use. -/
structure AppConfig where
  appClientId : Option String
  tenantId : Option String
  currentUserLogin : Option String
  redirectUri : Option String
  baseUrl : String
  directConnectUrl : String
deriving DecidableEq, Repr

/-- The slice of `APP_CONFIG` that `acquireToken` consumes as its
`settings` parameter. -/
def AppConfig.toAuthSettings (c : AppConfig) : IAuthSettings :=
  { appClientId := c.appClientId, tenantId := c.tenantId,
    currentUserLogin := c.currentUserLogin, redirectUri := c.redirectUri }

/-- An outbound HTTP request as the two services build it: URL, method,
the bearer token placed in the `Authorization` header, and the JSON body
as ordered key/value pairs. -/
structure HttpRequest where
  url : String
  method : String
  bearer : Option String
  body : List (String × String)
deriving DecidableEq, Repr

/-- The oracle for one chat fetch: the `response.ok` flag and the
`reply` field of `response.json()`. -/
structure ChatHttpResponse where
  ok : Bool
  reply : String
deriving DecidableEq, Repr

/-- The oracle for one session-init fetch: the `response.ok` flag and
the parsed `response.json()`, which is `none` when the body parses to a
falsy value and `some sessionId` otherwise. -/
structure InitHttpResponse where
  ok : Bool
  session : Option String
deriving DecidableEq, Repr

/-- `chat(sessionId, message, user)` from services/chat.ts: acquire a
token, `POST {baseUrl}/chat` with body `{sessionId, message}`; a non-ok
response throws `"Chat request failed"`, otherwise the parsed reply is
returned.  The result pairs the request issued with the outcome; the
`user` parameter is declared by the source but never used in its body. -/
def chat (cfg : AppConfig) (env : MsalEnv) (resp : ChatHttpResponse)
    (sessionId message user : String) : HttpRequest × Except String String :=
  let token := (acquireToken cfg.toAuthSettings env).1
  let req : HttpRequest :=
    { url := cfg.baseUrl ++ "/chat", method := "POST", bearer := token,
      body := [("sessionId", sessionId), ("message", message)] }
  if resp.ok then (req, Except.ok resp.reply)
  else (req, Except.error "Chat request failed")

/-- `IUser` from models/ISidebarAgentProperties.ts. -/
structure IUser where
  email : String
  displayName : String
  loginName : String
deriving DecidableEq, Repr

/-- `user.displayName?.split(" ")[0] || ""` from initSession.ts: the
first space-separated word of the display name (the `|| ""` default
coincides with the empty first word on an empty name). -/
def firstNamePart (displayName : String) : String :=
  firstWord displayName

/-- `initSession(siteUrl, user)` from services/initSession.ts: acquire a
token, `POST {directConnectUrl}/session/init` with body
`{siteUrl, userName}`; a non-ok response throws
`"Failed to initialize session"`, otherwise the parsed session object is
returned. -/
def initSession (cfg : AppConfig) (env : MsalEnv) (resp : InitHttpResponse)
    (siteUrl : String) (user : IUser) :
    HttpRequest × Except String (Option String) :=
  let token := (acquireToken cfg.toAuthSettings env).1
  let req : HttpRequest :=
    { url := cfg.directConnectUrl ++ "/session/init", method := "POST",
      bearer := token,
      body := [("siteUrl", siteUrl), ("userName", firstNamePart user.displayName)] }
  if resp.ok then (req, Except.ok resp.session)
  else (req, Except.error "Failed to initialize session")

/-! ## Attachment selection: `onSelectFiles` (Chat.tsx lines 136-164) -/

/-- A file offered by the browser's file input: name, byte size, MIME
type, and the text content `f.text()` would yield. -/
structure FileData where
  name : String
  size : Nat
  type : String
  content : String
deriving DecidableEq, Repr, Inhabited

/-- `AttachmentMeta` from Chat.tsx: metadata always captured, and the
extracted text when the file passed the filter. -/
structure AttachmentMeta where
  id : String
  name : String
  size : Nat
  type : String
  text : Option String
deriving DecidableEq, Repr, Inhabited

/-- The MIME allow-list `supported` from Chat.tsx. -/
def supportedTypes : List String :=
  ["text/plain", "application/json", "text/markdown"]

/-- The case-insensitive extension test `/\.(txt|md|json)$/i` from
Chat.tsx. -/
def hasTextExt (name : String) : Bool :=
  let lower := lowerStr name
  strEndsWith lower ".txt" || strEndsWith lower ".md" || strEndsWith lower ".json"

/-- The per-file filter of Chat.tsx line 150-153: text is extracted when
the size is at most 200 KB and the MIME type is supported or the name has
a text-like extension. -/
def acceptText (f : FileData) : Bool :=
  f.size ≤ 200 * 1024 && (supportedTypes.contains f.type || hasTextExt f.name)

/-- Build one `AttachmentMeta` from the `i`-th selected file: the id is
`` `${Date.now()}-${i}-${f.name}` `` (`now` models `Date.now()`);
metadata is always captured, and for a file passing the filter the text
is `(await f.text()).slice(0, 8000)`. -/
def processFile (now i : Nat) (f : FileData) : AttachmentMeta :=
  { id := toString now ++ "-" ++ toString i ++ "-" ++ f.name,
    name := f.name, size := f.size, type := f.type,
    text := if acceptText f then some (strTake f.content 8000) else none }

/-- The collection loop of `onSelectFiles`:
`for (i = 0; i < fileList.length && collected.length < 5; i++)`, pushing
a meta for every visited file (whether or not text was extracted). -/
def collectFiles (now : Nat) : List FileData → Nat → List AttachmentMeta →
    List AttachmentMeta
  | [], _, collected => collected
  | f :: rest, i, collected =>
      if collected.length < 5 then
        collectFiles now rest (i + 1) (collected ++ [processFile now i f])
      else collected

/-- `onSelectFiles(fileList)` from Chat.tsx: run the collection loop and
append the batch to the previous attachment list
(`setAttachments(prev => [...prev, ...collected])`). -/
def onSelectFiles (now : Nat) (files : List FileData)
    (prev : List AttachmentMeta) : List AttachmentMeta :=
  prev ++ collectFiles now files 0 []

/-! ## The `Chat` component (Chat.tsx) as a state machine

One `Chat` instance is modelled as a `World`: the React state fields,
whether the mount effect's `initSession` call is still pending, the
in-flight chat requests, and a log of every chat request ever issued.
Each user/network event maps to one transition, translated line by line
from the handlers in Chat.tsx.

The abort machinery of `handleSend` (lines 112-113, 127) appears as
`abortGen`: each executed send aborts the previous `AbortController` and
installs a fresh one.  Crucially, `chat()` in services/chat.ts neither
accepts nor passes an abort signal to `fetch`, so no pending request is
linked to any controller: aborting a controller removes nothing from
`pending`, and a completion is never an `AbortError`.  The embedding
reflects this by keeping `pending` entries signal-free. -/

/-- A message of the log (`Message` in Chat.tsx). -/
inductive Role where
  | user
  | assistant
deriving DecidableEq, Repr

/-- `{ role, content }` from Chat.tsx. -/
structure Message where
  role : Role
  content : String
deriving DecidableEq, Repr

/-- A chat request issued by `handleSend`: the arguments passed to
`chat(sessionId, message, user)`. -/
structure IssuedReq where
  sessionId : String
  message : String
  user : String
deriving DecidableEq, Repr

/-- The React state of one `Chat` instance (Chat.tsx lines 37-43). -/
structure ChatState where
  messages : List Message
  input : String
  loading : Bool
  error : Option String
  attachments : List AttachmentMeta
  sessionId : Option String
  sessionInitializing : Bool
deriving DecidableEq, Repr

/-- One mounted `Chat` instance: its state, whether the mount effect's
`initSession` promise is outstanding, the in-flight chat requests, and
every chat request ever issued by this instance. -/
structure World where
  user : String
  st : ChatState
  initPending : Bool
  pending : List IssuedReq
  issued : List IssuedReq
  abortGen : Nat
deriving DecidableEq, Repr

/-- State just after mount: `useState` initial values, with the mount
effect having set `sessionInitializing` to true and started
`initSession`. -/
def mountWorld (u : String) : World :=
  { user := u,
    st := { messages := [], input := "", loading := false, error := none,
            attachments := [], sessionId := none, sessionInitializing := true },
    initPending := true, pending := [], issued := [], abortGen := 0 }

/-- Resolution of the mount effect's `initSession` call: the promise
rejected, resolved to a falsy value, or resolved to `{sessionId}`. -/
inductive InitResult where
  | failed
  | nullSession
  | ok (sessionId : String)
deriving DecidableEq, Repr

/-- The events driving one `Chat` instance. -/
inductive Event where
  | initComplete (r : InitResult)
  | setInput (s : String)
  | sendClick
  | chatComplete (i : Nat) (resp : ChatHttpResponse)
  | selectFiles (now : Nat) (files : List FileData)
  | removeAttachment (id : String)
deriving DecidableEq, Repr

/-- One transition of the `Chat` instance.

* `initComplete` — the `init` continuation (Chat.tsx lines 64-78):
  rejection sets `"Session init failed."`, a falsy session sets
  `"Session not initialized."`, success stores the session id; all clear
  `sessionInitializing`.
* `setInput` — the textarea `onChange`.
* `sendClick` — the synchronous part of `handleSend` (lines 87-113):
  bail out on blank input or while loading; with no session id set
  `"Session not initialized."` and issue nothing; otherwise clear the
  error, append the user message, clear input and attachments, set
  loading, abort the previous `AbortController` and install a new one
  (`abortGen + 1` — the new controller's signal is attached to nothing),
  and issue the chat request.
* `chatComplete` — the continuation of `handleSend`'s `await chat(...)`
  (lines 115-133) for the `i`-th in-flight request: a non-ok outcome sets
  `"Error processing your request."`; an ok outcome appends the
  assistant message `response.reply || "No response from service."`;
  both clear `loading`.  (The `AbortError` branch of line 127 is
  unreachable: the fetch carries no signal.)
* `selectFiles` / `removeAttachment` — the attachment handlers. -/
def step (w : World) : Event → World
  | .initComplete r =>
      if w.initPending then
        match r with
        | .failed =>
            { w with
              initPending := false
              st := { w.st with
                      error := some "Session init failed."
                      sessionInitializing := false } }
        | .nullSession =>
            { w with
              initPending := false
              st := { w.st with
                      error := some "Session not initialized."
                      sessionInitializing := false } }
        | .ok sid =>
            { w with
              initPending := false
              st := { w.st with
                      sessionId := some sid
                      sessionInitializing := false } }
      else w
  | .setInput s => { w with st := { w.st with input := s } }
  | .sendClick =>
      if jsTrim w.st.input = "" ∨ w.st.loading = true then w
      else
        match w.st.sessionId with
        | none =>
            { w with st := { w.st with error := some "Session not initialized." } }
        | some sid =>
            let m := jsTrim w.st.input
            let req : IssuedReq := ⟨sid, m, w.user⟩
            { w with
              st := { w.st with
                      error := none
                      messages := w.st.messages ++ [⟨Role.user, m⟩]
                      input := ""
                      attachments := []
                      loading := true }
              abortGen := w.abortGen + 1
              pending := w.pending ++ [req]
              issued := w.issued ++ [req] }
  | .chatComplete i resp =>
      if i < w.pending.length then
        let w' := { w with pending := w.pending.eraseIdx i }
        if resp.ok then
          { w' with
            st := { w'.st with
                    messages := w'.st.messages ++
                      [⟨Role.assistant,
                        if resp.reply = "" then "No response from service."
                        else resp.reply⟩]
                    loading := false } }
        else
          { w' with
            st := { w'.st with
                    error := some "Error processing your request."
                    loading := false } }
      else w
  | .selectFiles now files =>
      { w with st := { w.st with
          attachments := onSelectFiles now files w.st.attachments } }
  | .removeAttachment id =>
      { w with st := { w.st with
          attachments := w.st.attachments.filter (fun a => a.id ≠ id) } }

/-- Run one `Chat` instance from mount through a list of events. -/
def run (u : String) (evs : List Event) : World :=
  evs.foldl step (mountWorld u)

/-! ## The application customizer (SidebarAgentApplicationCustomizer.ts) -/

/-- The customizer's configured properties, as JavaScript-truthy optional
strings (`onInit` guards them with `!this.properties.x`). -/
structure CustomizerProps where
  appClientId : Option String
  tenantId : Option String
  directConnectUrl : Option String
  agentIdentifier : Option String
  environmentId : Option String
deriving DecidableEq, Repr

/-- The promise `onInit` returns: rejected with a message, or resolved. -/
inductive InitOutcome where
  | rejected (msg : String)
  | resolved
deriving DecidableEq, Repr

/-- `onInit` (SidebarAgentApplicationCustomizer.ts lines 228-262): reject
when `appClientId` or `tenantId` is missing; reject when neither
`directConnectUrl` nor both `agentIdentifier` and `environmentId` are
present; otherwise subscribe to the placeholder event and render.  The
second component records whether the chat UI was mounted into the page
placeholder (`_renderPlaceholders` mounts exactly when the top
placeholder is available, which happens only on the non-reject path). -/
def onInit (p : CustomizerProps) (placeholderAvailable : Bool) :
    InitOutcome × Bool :=
  if ¬ (truthy p.appClientId = true ∧ truthy p.tenantId = true) then
    (.rejected "Missing required properties: appClientId and tenantId", false)
  else if truthy p.directConnectUrl = false ∧
      ¬ (truthy p.agentIdentifier = true ∧ truthy p.environmentId = true) then
    (.rejected
      "Missing required properties: Either provide directConnectUrl OR both agentIdentifier and environmentId",
      false)
  else
    (.resolved, placeholderAvailable)

/-- The state of `SidebarAgentComponent` combined with its mounted `Chat`
instance and a count of `initSession` invocations made so far across all
mounted chat views.

Modelled from the spec: the `SidePanel` component is not among the
repository's source files; per the spec the generation counter
(`chatKey`) is "used to force the chat view to remount", so it is taken
to be the remounted chat view's key.  Remounting replaces the `Chat`
instance with a freshly mounted one, and a freshly mounted `Chat` runs
its mount effect (Chat.tsx lines 60-85), which calls `initSession` —
counted by `totalInitCalls`. -/
structure SidebarAppState where
  isPanelOpen : Bool
  chatKey : Nat
  chatW : World
  totalInitCalls : Nat
deriving DecidableEq, Repr

/-- `_startNewConversation` (SidebarAgentApplicationCustomizer.ts lines
47-51) together with its spec-modelled consequence: increment `chatKey`;
the changed key remounts the chat view, so the `Chat` state is replaced
by the fresh mount state (empty message log, empty attachment list) and
the mount effect issues one more `initSession` call. -/
def startNewConversation (a : SidebarAppState) : SidebarAppState :=
  { a with
    chatKey := a.chatKey + 1
    chatW := mountWorld a.chatW.user
    totalInitCalls := a.totalInitCalls + 1 }

/-! ## Concrete scenarios used by the closed theorems -/

/-- The end-to-end scenario of the spec: session init returns
`{sessionId:"abc"}`, the user sends `"hello"`, the chat endpoint returns
`{reply:"hi there"}`. -/
def c8Trace : List Event :=
  [.initComplete (.ok "abc"), .setInput "hello", .sendClick,
   .chatComplete 0 ⟨true, "hi there"⟩]

/-- A send (`"hello"`) whose request is still in flight when a second
send action (`"world"`) is performed, after which the first request's
response (`"hi"`) arrives. -/
def c1Trace : List Event :=
  [.initComplete (.ok "abc"), .setInput "hello", .sendClick,
   .setInput "world", .sendClick,
   .chatComplete 0 ⟨true, "hi"⟩]

/-- A sidebar state with one completed exchange in the chat view and the
single mount-time `initSession` call on record. -/
def c2Before : SidebarAppState :=
  { isPanelOpen := true, chatKey := 0,
    chatW := run "alice" c8Trace, totalInitCalls := 1 }

/-- A concrete `APP_CONFIG` for the end-to-end scenario. -/
def c8Cfg : AppConfig :=
  { appClientId := some "app", tenantId := some "ten",
    currentUserLogin := some "alice", redirectUri := none,
    baseUrl := "https://site", directConnectUrl := "https://site" }

/-- A concrete MSAL environment: cached account, silent renewal
succeeds. -/
def c8Env : MsalEnv :=
  { cachedAccounts := ["alice"], loginPopup := LoginOutcome.failure,
    acquireTokenSilent := SilentOutcome.success "tok123",
    acquireTokenPopup := PopupOutcome.failure }

/-- A `Chat` instance that has completed session initialization
(session id `"abc"`) and holds the draft input `"hello"`. -/
def c6World : World :=
  run "alice" [.initComplete (.ok "abc"), .setInput "hello"]

/-- The invariant of one `Chat` instance that the reachability proof
maintains: every issued chat request carries the instance's unique
session handle; before a session handle exists nothing was issued and
nothing is in flight; once a handle exists the mount initialization is
over (so the handle is never overwritten). -/
def SessionInv (w : World) : Prop :=
  (∀ r ∈ w.issued, w.st.sessionId = some r.sessionId) ∧
  (w.st.sessionId = none → w.issued = []) ∧
  (w.st.sessionId = none → w.pending = []) ∧
  (w.st.sessionId ≠ none → w.initPending = false)

end Genie

open Genie in
/-- The collection loop visits exactly the files that fit under the
batch cap and maps `processFile` over them with their indices. -/
theorem collectFiles_eq (now : Nat) :
    ∀ (files : List FileData) (i : Nat) (collected : List AttachmentMeta),
    collectFiles now files i collected =
      collected ++ ((files.take (5 - collected.length)).enumFrom i).map
        (fun p => processFile now p.1 p.2) := by
  intro files
  induction files with
  | nil => intro i collected; simp [collectFiles]
  | cons f rest ih =>
      intro i collected
      by_cases h : collected.length < 5
      · rw [collectFiles, if_pos h, ih]
        have hlen : (collected ++ [processFile now i f]).length
            = collected.length + 1 := by simp
        have h5 : 5 - collected.length = (4 - collected.length) + 1 := by omega
        have h4 : 5 - (collected.length + 1) = 4 - collected.length := by omega
        rw [hlen, h4, h5, List.take_succ_cons]
        simp only [List.enumFrom, List.map_cons, List.append_assoc,
          List.cons_append, List.nil_append]
      · rw [collectFiles, if_neg h]
        have h0 : 5 - collected.length = 0 := by omega
        simp [h0]


open Genie in
/-- C7: a selection batch appends at most 5 attachment entries — exactly
`processFile` applied to the first (up to) 5 files in order — and
`processFile` always records the file's metadata while extracting
(8000-character-truncated) text if and only if the file's size is at most
200 KB and its MIME type is in the allow-list or its name has a
`.txt`/`.md`/`.json` extension. -/
theorem C7_attachment_filter (now : Nat) (files : List FileData)
    (prev : List AttachmentMeta) :
    (onSelectFiles now files prev =
      prev ++ ((files.take 5).enumFrom 0).map (fun p => processFile now p.1 p.2)) ∧
    ((files.take 5).length ≤ 5) ∧
    (∀ i : Nat, ∀ f : FileData,
      (processFile now i f).name = f.name ∧
      (processFile now i f).size = f.size ∧
      (processFile now i f).type = f.type ∧
      (processFile now i f).text =
        (if f.size ≤ 200 * 1024 ∧ (f.type ∈ supportedTypes ∨ hasTextExt f.name = true)
         then some (strTake f.content 8000) else none)) := by
  refine ⟨?_, ?_, ?_⟩
  · rw [onSelectFiles, collectFiles_eq]
    simp
  · simp [List.length_take]
  · intro i f
    refine ⟨rfl, rfl, rfl, ?_⟩
    rw [processFile]
    by_cases h : acceptText f = true
    · rw [if_pos h]
      have h' : f.size ≤ 200 * 1024 ∧
          (f.type ∈ supportedTypes ∨ hasTextExt f.name = true) := by
        rw [acceptText] at h
        simpa using h
      rw [if_pos h']
    · rw [if_neg h]
      have h' : ¬ (f.size ≤ 200 * 1024 ∧
          (f.type ∈ supportedTypes ∨ hasTextExt f.name = true)) := by
        rw [acceptText] at h
        intro hcon
        exact h (by simpa using hcon)
      rw [if_neg h']

open Genie in
/-- C10: two `chat` invocations differing only in the `user` argument
produce the identical outgoing request and result — the user argument is
ignored by token acquisition (which consumes only the settings) and does
not occur in the request payload, which is exactly
`{sessionId, message}`. -/
theorem C10_chat_user_noninterference (cfg : AppConfig) (env : MsalEnv)
    (resp : ChatHttpResponse) (sessionId message u1 u2 : String) :
    chat cfg env resp sessionId message u1 = chat cfg env resp sessionId message u2 ∧
    (chat cfg env resp sessionId message u1).1.body
      = [("sessionId", sessionId), ("message", message)] := by
  unfold chat
  refine ⟨rfl, ?_⟩
  cases h : resp.ok <;> simp [h]

/-! ## Claims C3 and C4: the token-acquisition flow -/

open Genie in
/-- C3: whenever silent renewal is reached and fails, the interactive
token-popup fallback is attempted exactly once if and only if the failure
is an interaction-required error; any other silent failure yields
`undefined` with no token popup, and a failing fallback also yields
`undefined` — never an exception to the caller. -/
theorem C3_silent_failure_fallback (settings : IAuthSettings) (env : MsalEnv)
    (hc : truthy settings.appClientId = true) (ht : truthy settings.tenantId = true)
    (hacct : env.cachedAccounts ≠ [] ∨ ∃ a, env.loginPopup = LoginOutcome.success a) :
    (env.acquireTokenSilent = SilentOutcome.interactionRequired →
        tokenPopupCount (acquireToken settings env).2 = 1 ∧
        (env.acquireTokenPopup = PopupOutcome.failure →
          (acquireToken settings env).1 = none) ∧
        (∀ tok, env.acquireTokenPopup = PopupOutcome.success tok →
          (acquireToken settings env).1 = some tok)) ∧
    (env.acquireTokenSilent = SilentOutcome.otherFailure →
        (acquireToken settings env).1 = none ∧
        tokenPopupCount (acquireToken settings env).2 = 0) := by
  unfold acquireToken
  rw [if_neg (by simp [hc, ht])]
  rcases h : env.cachedAccounts.head? with _ | a
  · rcases hacct with hne | ⟨a, hl⟩
    · cases henv : env.cachedAccounts with
      | nil => exact absurd henv hne
      | cons x xs => rw [henv] at h; simp [List.head?] at h
    · rw [hl]
      constructor
      · intro hsil
        cases hpop : env.acquireTokenPopup with
        | success tok =>
            simp [silentThenPopup, hsil, hpop, tokenPopupCount]
        | failure =>
            simp [silentThenPopup, hsil, hpop, tokenPopupCount]
      · intro hsil
        simp [silentThenPopup, hsil, tokenPopupCount]
  · constructor
    · intro hsil
      cases hpop : env.acquireTokenPopup with
      | success tok => simp [silentThenPopup, hsil, hpop, tokenPopupCount]
      | failure => simp [silentThenPopup, hsil, hpop, tokenPopupCount]
    · intro hsil
      simp [silentThenPopup, hsil, tokenPopupCount]

open Genie in
/-- Witness for C3 at a concrete input: a cached account, silent renewal
failing with interaction-required, popup fallback failing. -/
theorem C3_silent_failure_fallback_witness :
    tokenPopupCount (acquireToken
      ⟨some "app", some "ten", some "alice", none⟩
      ⟨["alice"], LoginOutcome.failure, SilentOutcome.interactionRequired,
        PopupOutcome.failure⟩).2 = 1 ∧
    (acquireToken
      ⟨some "app", some "ten", some "alice", none⟩
      ⟨["alice"], LoginOutcome.failure, SilentOutcome.interactionRequired,
        PopupOutcome.failure⟩).1 = none := by
  have h := C3_silent_failure_fallback
    ⟨some "app", some "ten", some "alice", none⟩
    ⟨["alice"], LoginOutcome.failure, SilentOutcome.interactionRequired,
      PopupOutcome.failure⟩
    (by decide) (by decide) (Or.inl (by decide))
  exact ⟨(h.1 rfl).1, (h.1 rfl).2.1 rfl⟩

open Genie in
/-- C4: with a cached account and successful silent renewal,
`acquireToken` returns the renewed access token and opens no interactive
prompt (neither a login popup nor a token popup). -/
theorem C4_silent_success_no_prompt (settings : IAuthSettings) (env : MsalEnv)
    (hc : truthy settings.appClientId = true) (ht : truthy settings.tenantId = true)
    (a : String) (rest : List String) (hacct : env.cachedAccounts = a :: rest)
    (tok : String) (hs : env.acquireTokenSilent = SilentOutcome.success tok) :
    acquireToken settings env = (some tok, []) := by
  unfold acquireToken
  rw [if_neg (by simp [hc, ht])]
  rw [hacct]
  simp [silentThenPopup, hs]

open Genie in
/-- Witness for C4 at a concrete input. -/
theorem C4_silent_success_no_prompt_witness :
    acquireToken ⟨some "app", some "ten", some "alice", none⟩
      ⟨["alice"], LoginOutcome.failure, SilentOutcome.success "tok123",
        PopupOutcome.failure⟩ = (some "tok123", []) :=
  C4_silent_success_no_prompt
    ⟨some "app", some "ten", some "alice", none⟩
    ⟨["alice"], LoginOutcome.failure, SilentOutcome.success "tok123",
      PopupOutcome.failure⟩
    (by decide) (by decide) "alice" [] rfl "tok123" rfl

open Genie in
/-- `SessionInv` holds at mount. -/
theorem sessionInv_mount (u : String) : SessionInv (mountWorld u) := by
  refine ⟨?_, fun _ => rfl, fun _ => rfl, fun h => absurd rfl h⟩
  intro r hr
  simp [mountWorld] at hr

open Genie in
/-- A send action attempted with blank (trimmed) input or while a
request is loading is a no-op (`handleSend`'s first guard). -/
theorem step_sendClick_guard (w : World)
    (hg : jsTrim w.st.input = "" ∨ w.st.loading = true) :
    step w Event.sendClick = w := by
  simp [step, hg]

open Genie in
/-- A send action with no session handle only sets the error text
(`handleSend`'s second guard): nothing is issued, nothing aborted. -/
theorem step_sendClick_noSession (w : World)
    (hg : ¬ (jsTrim w.st.input = "" ∨ w.st.loading = true))
    (hs : w.st.sessionId = none) :
    step w Event.sendClick
      = { w with st := { w.st with error := some "Session not initialized." } } := by
  simp only [step, if_neg hg, hs]

open Genie in
/-- An executed send with session handle `sid`: appends the user message,
clears input/attachments, sets loading, rotates the abort controller and
issues the request. -/
theorem step_sendClick_session (w : World) (sid : String)
    (hg : ¬ (jsTrim w.st.input = "" ∨ w.st.loading = true))
    (hs : w.st.sessionId = some sid) :
    step w Event.sendClick
      = { w with
          st := { w.st with
                  error := none
                  messages := w.st.messages ++ [⟨Role.user, jsTrim w.st.input⟩]
                  input := ""
                  attachments := []
                  loading := true }
          abortGen := w.abortGen + 1
          pending := w.pending ++ [⟨sid, jsTrim w.st.input, w.user⟩]
          issued := w.issued ++ [⟨sid, jsTrim w.st.input, w.user⟩] } := by
  simp only [step, if_neg hg, hs]

open Genie in
/-- `SessionInv` is preserved by every transition. -/
theorem sessionInv_step (w : World) (e : Event) (h : SessionInv w) :
    SessionInv (step w e) := by
  obtain ⟨h1, h2, h3, h4⟩ := h
  cases e with
  | initComplete r =>
      by_cases hip : w.initPending
      · cases r with
        | failed =>
            simp only [step, if_pos hip]
            exact ⟨h1, h2, h3, fun _ => rfl⟩
        | nullSession =>
            simp only [step, if_pos hip]
            exact ⟨h1, h2, h3, fun _ => rfl⟩
        | ok sid =>
            have hnone : w.st.sessionId = none := by
              cases hs : w.st.sessionId with
              | none => rfl
              | some s => exact absurd (h4 (by simp [hs])) (by simp [hip])
            simp only [step, if_pos hip]
            refine ⟨?_, by simp, by simp [h3 hnone], fun _ => rfl⟩
            intro r hr
            rw [h2 hnone] at hr
            simp at hr
      · simp only [step, if_neg hip]
        exact ⟨h1, h2, h3, h4⟩
  | setInput s => exact ⟨h1, h2, h3, h4⟩
  | sendClick =>
      by_cases hg : jsTrim w.st.input = "" ∨ w.st.loading = true
      · rw [step_sendClick_guard w hg]
        exact ⟨h1, h2, h3, h4⟩
      · cases hs : w.st.sessionId with
        | none =>
            rw [step_sendClick_noSession w hg hs]
            exact ⟨h1, h2, h3, h4⟩
        | some sid =>
            rw [step_sendClick_session w sid hg hs]
            refine ⟨?_, ?_, ?_, ?_⟩
            · intro r hr
              have hr' : r ∈ w.issued ++ [⟨sid, jsTrim w.st.input, w.user⟩] := hr
              show w.st.sessionId = some r.sessionId
              simp only [List.mem_append, List.mem_singleton] at hr'
              rcases hr' with hr' | hr'
              · exact h1 r hr'
              · subst hr'; exact hs
            · intro hcon
              have hcon' : w.st.sessionId = none := hcon
              rw [hs] at hcon'
              exact absurd hcon' (by simp)
            · intro hcon
              have hcon' : w.st.sessionId = none := hcon
              rw [hs] at hcon'
              exact absurd hcon' (by simp)
            · intro _
              exact h4 (by simp [hs])
  | chatComplete i resp =>
      by_cases hi : i < w.pending.length
      · cases hok : resp.ok with
        | true =>
            simp only [step, if_pos hi, hok]
            refine ⟨h1, h2, ?_, h4⟩
            intro hnone
            simp [h3 hnone]
        | false =>
            simp only [step, if_pos hi, hok]
            refine ⟨h1, h2, ?_, h4⟩
            intro hnone
            simp [h3 hnone]
      · simp only [step, if_neg hi]
        exact ⟨h1, h2, h3, h4⟩
  | selectFiles now files => exact ⟨h1, h2, h3, h4⟩
  | removeAttachment id => exact ⟨h1, h2, h3, h4⟩

open Genie in
/-- `SessionInv` holds along any fold of events. -/
theorem sessionInv_foldl (evs : List Event) (w : World) (h : SessionInv w) :
    SessionInv (evs.foldl step w) := by
  induction evs generalizing w with
  | nil => exact h
  | cons e rest ih => exact ih (step w e) (sessionInv_step w e h)

open Genie in
/-- C9: in every reachable state of one chat instance, every chat request
ever issued carries the instance's one session handle; while no session
handle exists nothing has been issued and nothing is in flight; and a
send in a state without a session handle issues no request and (when not
short-circuited by the blank-input/loading guard) sets the
"Session not initialized." error. -/
theorem C9_single_session_no_chat_before_init (u : String) (evs : List Event) :
    (∀ r ∈ (run u evs).issued,
        (run u evs).st.sessionId = some r.sessionId) ∧
    ((run u evs).st.sessionId = none →
        (run u evs).issued = [] ∧ (run u evs).pending = []) ∧
    (∀ w : World, w.st.sessionId = none →
        (step w Event.sendClick).issued = w.issued ∧
        (step w Event.sendClick).pending = w.pending ∧
        (¬ (jsTrim w.st.input = "" ∨ w.st.loading = true) →
          (step w Event.sendClick).st.error = some "Session not initialized.")) := by
  have hinv : SessionInv (run u evs) :=
    sessionInv_foldl evs (mountWorld u) (sessionInv_mount u)
  obtain ⟨h1, h2, h3, _⟩ := hinv
  refine ⟨h1, fun hn => ⟨h2 hn, h3 hn⟩, ?_⟩
  intro w hs
  by_cases hg : jsTrim w.st.input = "" ∨ w.st.loading = true
  · rw [step_sendClick_guard w hg]
    exact ⟨rfl, rfl, fun hng => absurd hg hng⟩
  · rw [step_sendClick_noSession w hg hs]
    exact ⟨rfl, rfl, fun _ => rfl⟩

open Genie in
/-- C5: a configuration missing `appClientId`, missing `tenantId`, or
missing both `directConnectUrl` and the `agentIdentifier`+`environmentId`
pair makes `onInit` reject, and no chat UI is mounted into the page
placeholder. -/
theorem C5_missing_config_rejects (p : CustomizerProps) (avail : Bool)
    (h : truthy p.appClientId = false ∨ truthy p.tenantId = false ∨
      (truthy p.directConnectUrl = false ∧
        ¬ (truthy p.agentIdentifier = true ∧ truthy p.environmentId = true))) :
    (∃ m, (onInit p avail).1 = InitOutcome.rejected m) ∧
    (onInit p avail).2 = false := by
  unfold onInit
  by_cases h1 : truthy p.appClientId = true ∧ truthy p.tenantId = true
  · rw [if_neg (by simp [h1])]
    have h2 : truthy p.directConnectUrl = false ∧
        ¬ (truthy p.agentIdentifier = true ∧ truthy p.environmentId = true) := by
      rcases h with hc | ht | hd
      · exact absurd h1.1 (by simp [hc])
      · exact absurd h1.2 (by simp [ht])
      · exact hd
    rw [if_pos h2]
    exact ⟨⟨_, rfl⟩, rfl⟩
  · rw [if_pos h1]
    exact ⟨⟨_, rfl⟩, rfl⟩

open Genie in
/-- Witness for C5: an entirely unconfigured extension rejects and mounts
nothing. -/
theorem C5_missing_config_rejects_witness :
    (∃ m, (onInit ⟨none, none, none, none, none⟩ true).1
        = InitOutcome.rejected m) ∧
    (onInit ⟨none, none, none, none, none⟩ true).2 = false :=
  C5_missing_config_rejects ⟨none, none, none, none, none⟩ true
    (Or.inl (by decide))

open Genie in
/-- C6: a non-ok chat response makes the Chat Client raise
`"Chat request failed"`, and at the controller the user message appended
by the send remains in the log, the visible error
`"Error processing your request."` is set, and no assistant message is
appended. -/
theorem C6_chat_http_failure (cfg : AppConfig) (env : MsalEnv)
    (resp : ChatHttpResponse) (hresp : resp.ok = false)
    (s m u : String) (w : World)
    (hsid : w.st.sessionId = some s)
    (hin : ¬ jsTrim w.st.input = "") (hld : w.st.loading = false)
    (hpend : w.pending = []) :
    (chat cfg env resp s m u).2 = Except.error "Chat request failed" ∧
    (step w Event.sendClick).st.messages
      = w.st.messages ++ [⟨Role.user, jsTrim w.st.input⟩] ∧
    (step (step w Event.sendClick) (Event.chatComplete 0 resp)).st.messages
      = w.st.messages ++ [⟨Role.user, jsTrim w.st.input⟩] ∧
    (step (step w Event.sendClick) (Event.chatComplete 0 resp)).st.error
      = some "Error processing your request." := by
  have hg : ¬ (jsTrim w.st.input = "" ∨ w.st.loading = true) := by
    simp [hin, hld]
  have hsend :
      step w Event.sendClick =
        { w with
          st := { w.st with
                  error := none
                  messages := w.st.messages ++ [⟨Role.user, jsTrim w.st.input⟩]
                  input := ""
                  attachments := []
                  loading := true }
          abortGen := w.abortGen + 1
          pending := w.pending ++ [⟨s, jsTrim w.st.input, w.user⟩]
          issued := w.issued ++ [⟨s, jsTrim w.st.input, w.user⟩] } := by
    simp only [step, if_neg hg, hsid]
  refine ⟨?_, ?_, ?_, ?_⟩
  · unfold chat
    simp [hresp]
  · rw [hsend]
  · rw [hsend]
    simp only [step, hpend, List.nil_append, List.length_singleton,
      Nat.lt_irrefl, hresp]
    simp
  · rw [hsend]
    simp only [step, hpend, List.nil_append, List.length_singleton,
      Nat.lt_irrefl, hresp]
    simp

open Genie in
/-- Witness for C6 at a concrete input: the ready instance `c6World`
holding draft `"hello"`, and a non-ok chat response. -/
theorem C6_chat_http_failure_witness :
    (chat c8Cfg c8Env ⟨false, ""⟩ "abc" "hello" "alice").2
      = Except.error "Chat request failed" ∧
    (step c6World Event.sendClick).st.messages
      = c6World.st.messages ++ [⟨Role.user, jsTrim c6World.st.input⟩] ∧
    (step (step c6World Event.sendClick)
        (Event.chatComplete 0 ⟨false, ""⟩)).st.messages
      = c6World.st.messages ++ [⟨Role.user, jsTrim c6World.st.input⟩] ∧
    (step (step c6World Event.sendClick)
        (Event.chatComplete 0 ⟨false, ""⟩)).st.error
      = some "Error processing your request." :=
  C6_chat_http_failure c8Cfg c8Env ⟨false, ""⟩ rfl "abc" "hello" "alice" c6World
    (by decide) (by decide) (by decide) (by decide)

open Genie in
/-- C8: session init returning `{sessionId:"abc"}` followed by a chat
turn `"hello"` answered `{reply:"hi there"}` leaves the message log
exactly `[user "hello", assistant "hi there"]`. -/
theorem C8_end_to_end_scenario :
    (initSession c8Cfg c8Env ⟨true, some "abc"⟩ "https://site"
        ⟨"alice@contoso.com", "alice", "alice"⟩).2 = Except.ok (some "abc") ∧
    (chat c8Cfg c8Env ⟨true, "hi there"⟩ "abc" "hello" "alice").2
      = Except.ok "hi there" ∧
    (run "alice" c8Trace).st.messages
      = [⟨Role.user, "hello"⟩, ⟨Role.assistant, "hi there"⟩] := by
  refine ⟨rfl, rfl, by decide⟩

open Genie in
/-- C1 (code behaviour at the failing input): after a send action is
performed while the `"hello"` request is still in flight, that prior
request is still pending — nothing was cancelled, because `chat()` never
attaches the `AbortController`'s signal to its fetch — and when its
response `"hi"` arrives it is appended to the message log rather than
being discarded. -/
theorem C1_prior_request_not_cancelled :
    (run "alice" (c1Trace.take 5)).pending = [⟨"abc", "hello", "alice"⟩] ∧
    (run "alice" (c1Trace.take 5)).st.loading = true ∧
    (run "alice" c1Trace).st.messages
      = [⟨Role.user, "hello"⟩, ⟨Role.assistant, "hi"⟩] := by decide

open Genie in
/-- C2 counterexample: the new-conversation reset remounts the chat view,
whose mount effect calls `initSession` again — the initialization call
count does not stay unchanged as the claim asserts. -/
theorem C2_reset_calls_initSession_again :
    (startNewConversation c2Before).totalInitCalls ≠ c2Before.totalInitCalls := by
  decide

open Genie in
/-- C2 (amended): the new-conversation reset clears the message log and
the attachment list and increments the generation counter, but — because
the remounted chat view's mount effect runs again — `initSession` is
called one more time (the session is re-initialized). -/
theorem C2_reset_clears_and_reinitializes (a : SidebarAppState) :
    (startNewConversation a).chatW.st.messages = [] ∧
    (startNewConversation a).chatW.st.attachments = [] ∧
    (startNewConversation a).chatKey = a.chatKey + 1 ∧
    (startNewConversation a).totalInitCalls = a.totalInitCalls + 1 :=
  ⟨rfl, rfl, rfl, rfl⟩
